import Mathlib

/-
Shallow embedding of the LSM9DS1 SPI driver (final revision of the driver in
this repository): the transport layer (SPI_transfer, chip-select handling on
P6OUT bits 0/1/2), the register protocol layer (read_SPI, write_SPI,
LSM9DS1_Init) and the scaling accessors (LSM9DS1_XA .. LSM9DS1_TMP,
LSM9DS1_WHO_AM_I).

Modelling conventions:
- uint8_t / uint16_t values are Nat with explicit % 256 / % 65536 where the C
  code converts; int16_t values are Int wrapped into [-32768, 32767].
- The bus environment is a list of response bytes; each SPI_transfer consumes
  one (an exhausted list responds 0, the idle level).
- The side effects of a call are recorded as an event trace: P6OUT read-modify-
  write operations (andOut / orOut masks) and byte transfers (xfer tx rx).
  The value of the P6OUT register at each point of a trace is recovered by
  folding the events over an initial register value.
-/

/-- port pin bit masks, as in msp.h -/
def BIT0 : Nat := 0x01

/-- port pin bit mask for bit 1 -/
def BIT1 : Nat := 0x02

/-- port pin bit mask for bit 2 -/
def BIT2 : Nat := 0x04

/-- complement of a mask on the 8-bit P6OUT register: models C `~m` truncated
to the register width -/
def compl8 (m : Nat) : Nat := 255 ^^^ m

/-- the device-select enumeration `enum ss_t {AG, M, A, G};` -/
inductive ss_t where
  | AG : ss_t
  | M : ss_t
  | A : ss_t
  | G : ss_t
deriving DecidableEq, Repr

/-- one observable side effect of the driver: a `P6OUT &= mask` write, a
`P6OUT |= mask` write, or one SPI byte transfer (transmitted byte, received
byte) -/
inductive SpiEv where
  | andOut : Nat → SpiEv
  | orOut : Nat → SpiEv
  | xfer : Nat → Nat → SpiEv
deriving DecidableEq, Repr

/-- driver state threaded through a transaction: the remaining bus responses
and the event trace so far -/
structure S where
  resp : List Nat
  events : List SpiEv
deriving DecidableEq, Repr

/-- initial state: a fresh response stream and an empty trace -/
def S0 (resp : List Nat) : S := ⟨resp, []⟩

/-- `uint8_t SPI_transfer(uint8_t data)`: transmit one byte, block until done,
return the byte shifted in.  The received byte is the next environment
response (as a uint8_t); the transfer is logged in the trace. -/
def xferS (data : Nat) (s : S) : Nat × S :=
  ⟨(s.resp.headD 0) % 256,
   ⟨s.resp.tail, s.events ++ [SpiEv.xfer (data % 256) ((s.resp.headD 0) % 256)]⟩⟩

/-- `P6OUT &= m` -/
def andOutS (m : Nat) (s : S) : S := ⟨s.resp, s.events ++ [SpiEv.andOut m]⟩

/-- `P6OUT |= m` -/
def orOutS (m : Nat) (s : S) : S := ⟨s.resp, s.events ++ [SpiEv.orOut m]⟩

/-- register addresses used by the final driver revision (from the #define
table of the source) -/
def WHO_AM_I : Nat := 0x0F

/-- CTRL_REG1_G register address -/
def CTRL_REG1_G : Nat := 0x10

/-- OUT_TEMP_L register address -/
def OUT_TEMP_L : Nat := 0x15

/-- OUT_X_L_G register address -/
def OUT_X_L_G : Nat := 0x18

/-- OUT_Y_L_G register address -/
def OUT_Y_L_G : Nat := 0x1A

/-- OUT_Z_L_G register address -/
def OUT_Z_L_G : Nat := 0x1C

/-- CTRL_REG5_XL register address -/
def CTRL_REG5_XL : Nat := 0x1F

/-- CTRL_REG6_XL register address -/
def CTRL_REG6_XL : Nat := 0x20

/-- CTRL_REG8 register address (AG control register 8: address auto increment,
software reset) -/
def CTRL_REG8 : Nat := 0x22

/-- OUT_X_L_XL register address -/
def OUT_X_L_XL : Nat := 0x28

/-- OUT_Y_L_XL register address -/
def OUT_Y_L_XL : Nat := 0x2A

/-- OUT_Z_L_XL register address -/
def OUT_Z_L_XL : Nat := 0x2C

/-- CTRL_REG1_M register address -/
def CTRL_REG1_M : Nat := 0x20

/-- CTRL_REG3_M register address -/
def CTRL_REG3_M : Nat := 0x22

/-- CTRL_REG4_M register address -/
def CTRL_REG4_M : Nat := 0x23

/-- OUT_X_L_M register address -/
def OUT_X_L_M : Nat := 0x28

/-- OUT_Y_L_M register address -/
def OUT_Y_L_M : Nat := 0x2A

/-- OUT_Z_L_M register address -/
def OUT_Z_L_M : Nat := 0x2C

/-- `void read_SPI(enum ss_t device, uint8_t address, uint8_t bytesToRead)`:
returns the value left in the global RDxBuffer together with the final state.
Transliterated from the source: assert the chip select and send the address
byte (| 0x80 for AG, | 0xC0 for M; nothing for other enum values), read one
byte into RDxBuffer, read a second byte into the high half when bytesToRead
is 2, deassert the chip select. -/
def read_SPI (device : ss_t) (address : Nat) (bytesToRead : Nat) (s0 : S) :
    Nat × S :=
  let s1 :=
    if device = ss_t.AG then
      (xferS (address ||| 0x80) (andOutS (compl8 BIT0 &&& compl8 BIT2) s0)).2
    else if device = ss_t.M then
      (xferS (address ||| 0xC0) (andOutS (compl8 BIT1 &&& compl8 BIT2) s0)).2
    else s0
  let r1 := (xferS 0 s1).1
  let s2 := (xferS 0 s1).2
  let rdx1 := 0x0000 ||| r1
  let rdx2 :=
    if bytesToRead = 2 then (((xferS 0 s2).1 <<< 8) ||| rdx1) % 65536 else rdx1
  let s3 := if bytesToRead = 2 then (xferS 0 s2).2 else s2
  let s4 :=
    if device = ss_t.AG then orOutS (BIT0 ||| BIT2) s3
    else if device = ss_t.M then orOutS (BIT1 ||| BIT2) s3
    else s3
  (rdx2, s4)

/-- `void write_SPI(enum ss_t device, uint8_t address, uint8_t data)`:
assert the chip select and send the address byte verbatim (nothing for enum
values other than AG and M), send the data byte, deassert the chip select. -/
def write_SPI (device : ss_t) (address : Nat) (data : Nat) (s0 : S) : S :=
  let s1 :=
    if device = ss_t.AG then
      (xferS address (andOutS (compl8 BIT0 &&& compl8 BIT2) s0)).2
    else if device = ss_t.M then
      (xferS address (andOutS (compl8 BIT1 &&& compl8 BIT2) s0)).2
    else s0
  let s2 := (xferS data s1).2
  if device = ss_t.AG then orOutS (BIT0 ||| BIT2) s2
  else if device = ss_t.M then orOutS (BIT1 ||| BIT2) s2
  else s2

/-- the fixed script of configuration writes issued by `LSM9DS1_Init` after
the port and eUSCI_B1 setup, in source order: (device, address, data) -/
def LSM9DS1_Init_writes : List (ss_t × Nat × Nat) :=
  [(ss_t.AG, CTRL_REG1_G, 0x20),
   (ss_t.AG, CTRL_REG6_XL, 0x40),
   (ss_t.AG, CTRL_REG5_XL, 0x38),
   (ss_t.M, CTRL_REG3_M, 0x00),
   (ss_t.M, CTRL_REG1_M, 0x74),
   (ss_t.M, CTRL_REG4_M, 0x0C)]

/-- run a list of write_SPI calls in order, threading the state -/
def runWrites : List (ss_t × Nat × Nat) → S → S
  | [], s => s
  | w :: ws, s => runWrites ws (write_SPI w.1 w.2.1 w.2.2 s)

/-- the SPI side of `LSM9DS1_Init`: the event trace of its six write_SPI
calls -/
def LSM9DS1_Init_events (resp : List Nat) : List SpiEv :=
  (runWrites LSM9DS1_Init_writes (S0 resp)).events

/-- `uint16_t LSM9DS1_WHO_AM_I(enum ss_t device)`: one-byte read of WHO_AM_I,
returns RDxBuffer -/
def LSM9DS1_WHO_AM_I (device : ss_t) (resp : List Nat) : Nat :=
  (read_SPI device WHO_AM_I 1 (S0 resp)).1

/-- reinterpret a 16-bit pattern as a signed (two's complement) int16_t, as
the C cast `(int16_t)RDxBuffer` does -/
def toInt16 (n : Nat) : Int :=
  if n % 65536 < 32768 then ((n % 65536 : Nat) : Int)
  else ((n % 65536 : Nat) : Int) - 65536

/-- wrap an Int into the int16_t range by two's complement, as the C
assignment of an int expression to an int16_t variable does -/
def wrap16 (z : Int) : Int :=
  if Int.emod z 65536 < 32768 then Int.emod z 65536
  else Int.emod z 65536 - 65536

/-- `int16_t LSM9DS1_XA(void)`: two-byte read of OUT_X_L_XL on AG, scale by
61/1000 with C integer arithmetic (int multiply, truncating divide, int16_t
store) -/
def LSM9DS1_XA (resp : List Nat) : Int :=
  let accelX := toInt16 (read_SPI ss_t.AG OUT_X_L_XL 2 (S0 resp)).1
  wrap16 (Int.tdiv (accelX * 61) 1000)

/-- `int16_t LSM9DS1_YA(void)` -/
def LSM9DS1_YA (resp : List Nat) : Int :=
  let accelY := toInt16 (read_SPI ss_t.AG OUT_Y_L_XL 2 (S0 resp)).1
  wrap16 (Int.tdiv (accelY * 61) 1000)

/-- `int16_t LSM9DS1_ZA(void)` -/
def LSM9DS1_ZA (resp : List Nat) : Int :=
  let accelZ := toInt16 (read_SPI ss_t.AG OUT_Z_L_XL 2 (S0 resp)).1
  wrap16 (Int.tdiv (accelZ * 61) 1000)

/-- `int16_t LSM9DS1_XG(void)`: two-byte read of OUT_X_L_G on AG, scale by
875/100 -/
def LSM9DS1_XG (resp : List Nat) : Int :=
  let gyroX := toInt16 (read_SPI ss_t.AG OUT_X_L_G 2 (S0 resp)).1
  wrap16 (Int.tdiv (gyroX * 875) 100)

/-- `int16_t LSM9DS1_YG(void)` -/
def LSM9DS1_YG (resp : List Nat) : Int :=
  let gyroY := toInt16 (read_SPI ss_t.AG OUT_Y_L_G 2 (S0 resp)).1
  wrap16 (Int.tdiv (gyroY * 875) 100)

/-- `int16_t LSM9DS1_ZG(void)` -/
def LSM9DS1_ZG (resp : List Nat) : Int :=
  let gyroZ := toInt16 (read_SPI ss_t.AG OUT_Z_L_G 2 (S0 resp)).1
  wrap16 (Int.tdiv (gyroZ * 875) 100)

/-- `int16_t LSM9DS1_XM(void)`: two-byte read of OUT_X_L_M on M, scale by
14/100 -/
def LSM9DS1_XM (resp : List Nat) : Int :=
  let magX := toInt16 (read_SPI ss_t.M OUT_X_L_M 2 (S0 resp)).1
  wrap16 (Int.tdiv (magX * 14) 100)

/-- `int16_t LSM9DS1_YM(void)` -/
def LSM9DS1_YM (resp : List Nat) : Int :=
  let magY := toInt16 (read_SPI ss_t.M OUT_Y_L_M 2 (S0 resp)).1
  wrap16 (Int.tdiv (magY * 14) 100)

/-- `int16_t LSM9DS1_ZM(void)` -/
def LSM9DS1_ZM (resp : List Nat) : Int :=
  let magZ := toInt16 (read_SPI ss_t.M OUT_Z_L_M 2 (S0 resp)).1
  wrap16 (Int.tdiv (magZ * 14) 100)

/-- `int16_t LSM9DS1_TMP(void)`: two-byte read of OUT_TEMP_L on AG, scale by
10/16 -/
def LSM9DS1_TMP (resp : List Nat) : Int :=
  let temp := toInt16 (read_SPI ss_t.AG OUT_TEMP_L 2 (S0 resp)).1
  wrap16 (Int.tdiv (temp * 10) 16)

/-- the bytes transmitted on the bus during a trace, in order -/
def txBytes (evs : List SpiEv) : List Nat :=
  evs.filterMap fun e =>
    match e with
    | SpiEv.xfer tx _ => some tx
    | _ => none

/-- effect of one event on the P6OUT register value -/
def applyEv (p : Nat) : SpiEv → Nat
  | SpiEv.andOut m => p &&& m
  | SpiEv.orOut m => p ||| m
  | SpiEv.xfer _ _ => p

/-- the successive values of P6OUT along a trace, starting from p0 (the value
before the first event); entry i is the register value before event i, and
the last entry is the value after the whole trace -/
def p6States (p0 : Nat) (evs : List SpiEv) : List Nat :=
  List.scanl applyEv p0 evs

/-- CSAG (P6.0, active low) is asserted -/
def csagAsserted (p : Nat) : Prop := p &&& BIT0 = 0

/-- CSM (P6.1, active low) is asserted -/
def csmAsserted (p : Nat) : Prop := p &&& BIT1 = 0

instance (p : Nat) : Decidable (csagAsserted p) := by
  unfold csagAsserted; infer_instance

instance (p : Nat) : Decidable (csmAsserted p) := by
  unfold csmAsserted; infer_instance

/-- the chip-select line belonging to a device is asserted -/
def devAsserted : ss_t → Nat → Prop
  | ss_t.AG, p => csagAsserted p
  | ss_t.M, p => csmAsserted p
  | _, _ => False

/-- chip-select framing of one transaction trace, seen from initial P6OUT
value p0: no state has both selects asserted; every state after the first
event and before the last one has the transacting device's select asserted;
the final state has it deasserted -/
def csOk (dev : ss_t) (p0 : Nat) (evs : List SpiEv) : Prop :=
  (∀ p ∈ p6States p0 evs, ¬(csagAsserted p ∧ csmAsserted p)) ∧
  (∀ p ∈ ((p6States p0 evs).drop 1).dropLast, devAsserted dev p) ∧
  ¬devAsserted dev ((p6States p0 evs).getLastD p0)

section Helpers

/-- or of a shifted high byte and a low byte stays below 2^16 -/
lemma lor16_lt (hi lo : Nat) (hhi : hi < 256) (hlo : lo < 256) :
    (hi <<< 8) ||| lo < 65536 := by
  have h1 : hi <<< 8 < 65536 := by rw [Nat.shiftLeft_eq]; omega
  have h2 : lo < 65536 := by omega
  exact Nat.or_lt_two_pow (n := 16) h1 h2

/-- a 7-bit address ored with a flag byte stays below 2^8 -/
lemma or_byte_lt (a b : Nat) (ha : a < 256) (hb : b < 256) : a ||| b < 256 :=
  Nat.or_lt_two_pow (n := 8) ha hb

/-- the AG chip-select assert mask `~BIT0 & ~BIT2` evaluates to 0xFA -/
lemma maskAG : compl8 BIT0 &&& compl8 BIT2 = 250 := by decide

/-- the M chip-select assert mask `~BIT1 & ~BIT2` evaluates to 0xF9 -/
lemma maskM : compl8 BIT1 &&& compl8 BIT2 = 249 := by decide

/-- the AG chip-select deassert mask `BIT0 | BIT2` evaluates to 5 -/
lemma orMaskAG : BIT0 ||| BIT2 = 5 := by decide

/-- the M chip-select deassert mask `BIT1 | BIT2` evaluates to 6 -/
lemma orMaskM : BIT1 ||| BIT2 = 6 := by decide

/-- event trace of an AG read -/
lemma read_events_AG (address bytesToRead : Nat) (resp : List Nat) :
    (read_SPI ss_t.AG address bytesToRead (S0 resp)).2.events =
      [SpiEv.andOut 250,
       SpiEv.xfer ((address ||| 0x80) % 256) ((resp.headD 0) % 256),
       SpiEv.xfer 0 ((resp.tail.headD 0) % 256)] ++
      (if bytesToRead = 2
       then [SpiEv.xfer 0 ((resp.tail.tail.headD 0) % 256)] else []) ++
      [SpiEv.orOut 5] := by
  by_cases h : bytesToRead = 2 <;>
    simp [read_SPI, xferS, andOutS, orOutS, S0, maskAG, maskM, orMaskAG, orMaskM, h]

/-- event trace of an M read -/
lemma read_events_M (address bytesToRead : Nat) (resp : List Nat) :
    (read_SPI ss_t.M address bytesToRead (S0 resp)).2.events =
      [SpiEv.andOut 249,
       SpiEv.xfer ((address ||| 0xC0) % 256) ((resp.headD 0) % 256),
       SpiEv.xfer 0 ((resp.tail.headD 0) % 256)] ++
      (if bytesToRead = 2
       then [SpiEv.xfer 0 ((resp.tail.tail.headD 0) % 256)] else []) ++
      [SpiEv.orOut 6] := by
  by_cases h : bytesToRead = 2 <;>
    simp [read_SPI, xferS, andOutS, orOutS, S0, maskAG, maskM, orMaskAG, orMaskM, h]

/-- event trace of an AG write -/
lemma write_events_AG (address data : Nat) (resp : List Nat) :
    (write_SPI ss_t.AG address data (S0 resp)).events =
      [SpiEv.andOut 250,
       SpiEv.xfer (address % 256) ((resp.headD 0) % 256),
       SpiEv.xfer (data % 256) ((resp.tail.headD 0) % 256),
       SpiEv.orOut 5] := by
  simp [write_SPI, xferS, andOutS, orOutS, S0, maskAG, maskM, orMaskAG, orMaskM]

/-- event trace of an M write -/
lemma write_events_M (address data : Nat) (resp : List Nat) :
    (write_SPI ss_t.M address data (S0 resp)).events =
      [SpiEv.andOut 249,
       SpiEv.xfer (address % 256) ((resp.headD 0) % 256),
       SpiEv.xfer (data % 256) ((resp.tail.headD 0) % 256),
       SpiEv.orOut 6] := by
  simp [write_SPI, xferS, andOutS, orOutS, S0, maskAG, maskM, orMaskAG, orMaskM]

/-- value assembled by a two-byte AG read -/
lemma read2_rdx_AG (address r0 lo hi : Nat) (rest : List Nat)
    (hlo : lo < 256) (hhi : hi < 256) :
    (read_SPI ss_t.AG address 2 (S0 (r0 :: lo :: hi :: rest))).1 =
      (hi <<< 8) ||| lo := by
  simp [read_SPI, xferS, andOutS, S0, Nat.mod_eq_of_lt hlo, Nat.mod_eq_of_lt hhi,
    Nat.mod_eq_of_lt (lor16_lt hi lo hhi hlo)]

/-- value assembled by a two-byte M read -/
lemma read2_rdx_M (address r0 lo hi : Nat) (rest : List Nat)
    (hlo : lo < 256) (hhi : hi < 256) :
    (read_SPI ss_t.M address 2 (S0 (r0 :: lo :: hi :: rest))).1 =
      (hi <<< 8) ||| lo := by
  simp [read_SPI, xferS, andOutS, S0, Nat.mod_eq_of_lt hlo, Nat.mod_eq_of_lt hhi,
    Nat.mod_eq_of_lt (lor16_lt hi lo hhi hlo)]

end Helpers

section FlagBits

set_option maxRecDepth 2048 in
/-- flag-bit arithmetic over all 7-bit addresses -/
lemma flagBits : ∀ a < 128,
    (a ||| 0x80) &&& 0x80 ≠ 0 ∧ (a ||| 0xC0) &&& 0x80 ≠ 0 ∧
    (a ||| 0x80) &&& 0x40 = a &&& 0x40 ∧ (a ||| 0xC0) &&& 0x40 ≠ 0 ∧
    a &&& 0x80 = 0 := by decide

end FlagBits

/-- C1: the claim is false as stated: for device M the first byte transmitted
during a read of register 0x0F is 0xCF = 0x0F | 0xC0, not 0x0F | 0x80 = 0x8F. -/
theorem read_first_byte_M_counterexample :
    (txBytes (read_SPI ss_t.M WHO_AM_I 1 (S0 [])).2.events).head? = some 0xCF ∧
    (0xCF : Nat) ≠ WHO_AM_I ||| 0x80 := by decide

/-- C1 (amended): for every 7-bit register address A, the first byte
transmitted during a read is A | 0x80 for device AG and A | 0xC0 for device M;
in both cases the most-significant (read-flag) bit of the address byte is
set. -/
theorem read_first_byte (address : Nat) (ha : address < 128)
    (bytesToRead : Nat) (resp : List Nat) :
    (txBytes (read_SPI ss_t.AG address bytesToRead (S0 resp)).2.events).head? =
      some (address ||| 0x80) ∧
    (txBytes (read_SPI ss_t.M address bytesToRead (S0 resp)).2.events).head? =
      some (address ||| 0xC0) ∧
    (address ||| 0x80) &&& 0x80 ≠ 0 ∧ (address ||| 0xC0) &&& 0x80 ≠ 0 := by
  obtain ⟨f1, f2, -, -, -⟩ := flagBits address ha
  have h80 : (address ||| 0x80) % 256 = address ||| 0x80 :=
    Nat.mod_eq_of_lt (or_byte_lt address 0x80 (by omega) (by omega))
  have hC0 : (address ||| 0xC0) % 256 = address ||| 0xC0 :=
    Nat.mod_eq_of_lt (or_byte_lt address 0xC0 (by omega) (by omega))
  refine ⟨?_, ?_, f1, f2⟩ <;>
    simp [read_events_AG, read_events_M, txBytes, h80, hC0]

/-- C1 (amended) witness at address 0x0F -/
theorem read_first_byte_witness :
    (txBytes (read_SPI ss_t.AG 0x0F 1 (S0 [])).2.events).head? = some 0x8F ∧
    (txBytes (read_SPI ss_t.M 0x0F 1 (S0 [])).2.events).head? = some 0xCF := by
  have h := read_first_byte 0x0F (by decide) 1 []
  exact ⟨h.1, h.2.1⟩

/-- C2: a two-byte read assembles little-endian: the response to the first
dummy transfer is the low byte and the response to the second dummy transfer
is the high byte of RDxBuffer. -/
theorem read2_little_endian (device : ss_t)
    (hdev : device = ss_t.AG ∨ device = ss_t.M)
    (address r0 lo hi : Nat) (rest : List Nat)
    (hlo : lo < 256) (hhi : hi < 256) :
    (read_SPI device address 2 (S0 (r0 :: lo :: hi :: rest))).1 =
      (hi <<< 8) ||| lo := by
  rcases hdev with h | h <;> subst h
  · exact read2_rdx_AG address r0 lo hi rest hlo hhi
  · exact read2_rdx_M address r0 lo hi rest hlo hhi

/-- C2 witness: transport data responses [0x34, 0x12] yield raw 0x1234 -/
theorem read2_little_endian_witness :
    (read_SPI ss_t.AG 0x28 2 (S0 [0x00, 0x34, 0x12])).1 = 0x1234 := by
  have h := read2_little_endian ss_t.AG (Or.inl rfl) 0x28 0x00 0x34 0x12 []
    (by decide) (by decide)
  simpa using h

/-- C4: scaling divides with truncation toward zero: accel raw 1000 scales to
61 and raw -1000 to -61 under the 61/1000 scale; temperature raw -160 scales
to -100 under the 10/16 scale (and raw -159 to -99, not the floor -100,
showing the rounding is toward zero, not down). -/
theorem scaling_truncates_toward_zero :
    toInt16 0x03E8 = 1000 ∧ LSM9DS1_XA [0x00, 0xE8, 0x03] = 61 ∧
    toInt16 0xFC18 = -1000 ∧ LSM9DS1_XA [0x00, 0x18, 0xFC] = -61 ∧
    toInt16 0xFF60 = -160 ∧ LSM9DS1_TMP [0x00, 0x60, 0xFF] = -100 ∧
    toInt16 0xFF61 = -159 ∧ LSM9DS1_TMP [0x00, 0x61, 0xFF] = -99 := by
  decide

/-- C6: a write transaction transmits exactly two bytes: the address byte
verbatim (whose most-significant read-flag bit is 0 for any 7-bit address)
followed by the data byte, for both devices. -/
theorem write_frame (device : ss_t)
    (hdev : device = ss_t.AG ∨ device = ss_t.M)
    (address data : Nat) (ha : address < 128) (hd : data < 256)
    (resp : List Nat) :
    txBytes (write_SPI device address data (S0 resp)).events =
      [address, data] ∧
    address &&& 0x80 = 0 := by
  obtain ⟨-, -, -, -, f5⟩ := flagBits address ha
  have hm : address % 256 = address := Nat.mod_eq_of_lt (by omega)
  have hdm : data % 256 = data := Nat.mod_eq_of_lt hd
  rcases hdev with h | h <;> subst h <;>
    simp [write_events_AG, write_events_M, txBytes, hm, hdm, f5]

/-- C6 witness at the first init write (AG, address 0x10, data 0x20) -/
theorem write_frame_witness :
    txBytes (write_SPI ss_t.AG 0x10 0x20 (S0 [])).events = [0x10, 0x20] ∧
    (0x10 : Nat) &&& 0x80 = 0 :=
  write_frame ss_t.AG (Or.inl rfl) 0x10 0x20 (by decide) (by decide) []

/-- C7: LSM9DS1_Init issues exactly six register writes, in the fixed order
CTRL_REG1_G(0x10)<-0x20 on AG, CTRL_REG6_XL(0x20)<-0x40 on AG,
CTRL_REG5_XL(0x1F)<-0x38 on AG, CTRL_REG3_M(0x22)<-0x00 on M,
CTRL_REG1_M(0x20)<-0x74 on M, CTRL_REG4_M(0x23)<-0x0C on M, and the byte
stream it puts on the bus is the corresponding twelve address/data bytes,
whatever the bus responds. -/
theorem init_write_script (resp : List Nat) :
    LSM9DS1_Init_writes =
      [(ss_t.AG, 0x10, 0x20), (ss_t.AG, 0x20, 0x40), (ss_t.AG, 0x1F, 0x38),
       (ss_t.M, 0x22, 0x00), (ss_t.M, 0x20, 0x74), (ss_t.M, 0x23, 0x0C)] ∧
    LSM9DS1_Init_writes.length = 6 ∧
    txBytes (LSM9DS1_Init_events resp) =
      [0x10, 0x20, 0x20, 0x40, 0x1F, 0x38, 0x22, 0x00, 0x20, 0x74, 0x23,
       0x0C] := by
  refine ⟨by decide, by decide, ?_⟩
  simp [LSM9DS1_Init_events, LSM9DS1_Init_writes, runWrites, write_SPI, xferS,
    andOutS, orOutS, S0, txBytes, CTRL_REG1_G, CTRL_REG6_XL, CTRL_REG5_XL,
    CTRL_REG3_M, CTRL_REG1_M, CTRL_REG4_M]

/-- C3: the claim is false as stated: the gyroscope accessors store the scaled
value back into a signed 16-bit variable, so a raw sample of 0x7FFF = 32767
does not return 32767 * 875 / 100 = 286711 but its two's complement 16-bit
wrap 24567. -/
theorem gyro_scale_counterexample :
    LSM9DS1_XG [0x00, 0xFF, 0x7F] = 24567 ∧
    toInt16 0x7FFF = 32767 ∧
    Int.tdiv (32767 * 875) 100 = 286711 ∧
    LSM9DS1_XG [0x00, 0xFF, 0x7F] ≠ Int.tdiv (toInt16 0x7FFF * 875) 100 := by
  decide

/-- C3 (amended): each gyroscope accessor reinterprets the 16-bit raw sample r
as signed and returns r * 875 / 100 with integer truncation, wrapped to a
signed 16-bit value; the wrap is the identity whenever the quotient already
lies in [-32768, 32767]. -/
theorem gyro_scale (lo hi : Nat) (hlo : lo < 256) (hhi : hi < 256)
    (r0 : Nat) (rest : List Nat) :
    LSM9DS1_XG (r0 :: lo :: hi :: rest) =
      wrap16 (Int.tdiv (toInt16 ((hi <<< 8) ||| lo) * 875) 100) ∧
    LSM9DS1_YG (r0 :: lo :: hi :: rest) =
      wrap16 (Int.tdiv (toInt16 ((hi <<< 8) ||| lo) * 875) 100) ∧
    LSM9DS1_ZG (r0 :: lo :: hi :: rest) =
      wrap16 (Int.tdiv (toInt16 ((hi <<< 8) ||| lo) * 875) 100) ∧
    (∀ z : Int, -32768 ≤ z → z ≤ 32767 → wrap16 z = z) := by
  refine ⟨?_, ?_, ?_, ?_⟩
  · show wrap16 _ = wrap16 _
    rw [read2_rdx_AG OUT_X_L_G r0 lo hi rest hlo hhi]
  · show wrap16 _ = wrap16 _
    rw [read2_rdx_AG OUT_Y_L_G r0 lo hi rest hlo hhi]
  · show wrap16 _ = wrap16 _
    rw [read2_rdx_AG OUT_Z_L_G r0 lo hi rest hlo hhi]
  · intro z h1 h2
    have he : wrap16 z =
        if z % 65536 < 32768 then z % 65536 else z % 65536 - 65536 := rfl
    rw [he]
    split <;> omega

/-- C3 (amended) witness at raw = 256 (lo 0x00, hi 0x01): 256 * 875 / 100 =
2240 -/
theorem gyro_scale_witness : LSM9DS1_XG [0x00, 0x00, 0x01] = 2240 := by
  have h := (gyro_scale 0x00 0x01 (by decide) (by decide) 0x00 []).1
  simpa using h

/-- first transmitted byte of an AG read, for a 7-bit address -/
lemma read_txHead_AG (address : Nat) (ha : address < 128)
    (bytesToRead : Nat) (resp : List Nat) :
    (txBytes (read_SPI ss_t.AG address bytesToRead (S0 resp)).2.events).head? =
      some (address ||| 0x80) := by
  have h80 : (address ||| 0x80) % 256 = address ||| 0x80 :=
    Nat.mod_eq_of_lt (or_byte_lt address 0x80 (by omega) (by omega))
  simp [read_events_AG, txBytes, h80]

/-- first transmitted byte of an M read, for a 7-bit address -/
lemma read_txHead_M (address : Nat) (ha : address < 128)
    (bytesToRead : Nat) (resp : List Nat) :
    (txBytes (read_SPI ss_t.M address bytesToRead (S0 resp)).2.events).head? =
      some (address ||| 0xC0) := by
  have hC0 : (address ||| 0xC0) % 256 = address ||| 0xC0 :=
    Nat.mod_eq_of_lt (or_byte_lt address 0xC0 (by omega) (by omega))
  simp [read_events_M, txBytes, hC0]

/-- C8: the claim is false as stated: the address byte of every M read carries
bit 0x40 (the magnetometer per-transaction auto-increment flag): reading
OUT_X_L_M (0x28) on M transmits 0xE8 = 0x28 | 0xC0, whose bit 0x40 is set
although the register address itself has that bit clear. -/
theorem m_read_increment_flag_counterexample :
    (txBytes (read_SPI ss_t.M OUT_X_L_M 2 (S0 [])).2.events).head? =
      some 0xE8 ∧
    (0xE8 : Nat) &&& 0x40 ≠ 0 ∧ OUT_X_L_M &&& 0x40 = 0 := by decide

/-- C8 (amended): AG read address bytes carry only the read flag 0x80 and no
per-transaction increment flag (bit 0x40 passes through from the address
unchanged), and initialization never writes the AG auto-increment
configuration register CTRL_REG8 (0x22 on AG), so the AG increment policy is
whatever the device powers up with; M read address bytes set the
per-transaction auto-increment bit 0x40 on every call. -/
theorem increment_flag_policy (address : Nat) (ha : address < 128)
    (bytesToRead : Nat) (resp : List Nat) :
    ((txBytes
        (read_SPI ss_t.AG address bytesToRead (S0 resp)).2.events).head? =
          some (address ||| 0x80) ∧
      (address ||| 0x80) &&& 0x40 = address &&& 0x40) ∧
    ((txBytes
        (read_SPI ss_t.M address bytesToRead (S0 resp)).2.events).head? =
          some (address ||| 0xC0) ∧
      (address ||| 0xC0) &&& 0x40 ≠ 0) ∧
    (∀ w ∈ LSM9DS1_Init_writes, ¬(w.1 = ss_t.AG ∧ w.2.1 = CTRL_REG8)) := by
  obtain ⟨-, -, f3, f4, -⟩ := flagBits address ha
  exact ⟨⟨read_txHead_AG address ha bytesToRead resp, f3⟩,
    ⟨read_txHead_M address ha bytesToRead resp, f4⟩, by decide⟩

/-- C8 (amended) witness at address 0x28 -/
theorem increment_flag_policy_witness :
    ((txBytes (read_SPI ss_t.AG 0x28 2 (S0 [])).2.events).head? =
        some (0x28 ||| 0x80) ∧
      ((0x28 : Nat) ||| 0x80) &&& 0x40 = 0x28 &&& 0x40) ∧
    ((txBytes (read_SPI ss_t.M 0x28 2 (S0 [])).2.events).head? =
        some (0x28 ||| 0xC0) ∧
      ((0x28 : Nat) ||| 0xC0) &&& 0x40 ≠ 0) ∧
    (∀ w ∈ LSM9DS1_Init_writes, ¬(w.1 = ss_t.AG ∧ w.2.1 = CTRL_REG8)) :=
  increment_flag_policy 0x28 (by decide) 2 []

/-- C9: calling read_SPI or write_SPI with enum value A or G touches no
chip-select line and transmits no address byte (the read trace holds only the
dummy data transfers and the write trace only the lone data-byte transfer),
yet read_SPI still overwrites RDxBuffer with the shifted-in bytes, so
LSM9DS1_WHO_AM_I on such a device returns the first shifted-in byte rather
than an error value. -/
theorem offEnum_read (device : ss_t)
    (hdev : device = ss_t.A ∨ device = ss_t.G)
    (address bytesToRead data : Nat) (resp wresp : List Nat) :
    (read_SPI device address bytesToRead (S0 resp)).2.events =
      SpiEv.xfer 0 ((resp.headD 0) % 256) ::
        (if bytesToRead = 2 then [SpiEv.xfer 0 ((resp.tail.headD 0) % 256)]
         else []) ∧
    (write_SPI device address data (S0 wresp)).events =
      [SpiEv.xfer (data % 256) ((wresp.headD 0) % 256)] ∧
    (read_SPI device address bytesToRead (S0 resp)).1 =
      (if bytesToRead = 2
       then (((resp.tail.headD 0) % 256) <<< 8) ||| ((resp.headD 0) % 256)
       else (resp.headD 0) % 256) ∧
    LSM9DS1_WHO_AM_I device resp = (resp.headD 0) % 256 := by
  rcases hdev with h | h <;> subst h <;>
    by_cases h2 : bytesToRead = 2 <;>
    simp [read_SPI, write_SPI, xferS, S0, LSM9DS1_WHO_AM_I, WHO_AM_I, h2] <;>
    exact lor16_lt _ _ (Nat.mod_lt _ (by omega)) (Nat.mod_lt _ (by omega))

/-- C9 witness: enum value A, a read whose bus shifts in 0xAB and a write of
data byte 0x20 -/
theorem offEnum_read_witness :
    (read_SPI ss_t.A 0x0F 1 (S0 [0xAB])).2.events = [SpiEv.xfer 0 0xAB] ∧
    (write_SPI ss_t.A 0x0F 0x20 (S0 [])).events = [SpiEv.xfer 0x20 0] ∧
    (read_SPI ss_t.A 0x0F 1 (S0 [0xAB])).1 = 0xAB ∧
    LSM9DS1_WHO_AM_I ss_t.A [0xAB] = 0xAB := by
  have h := offEnum_read ss_t.A (Or.inl rfl) 0x0F 1 0x20 [0xAB] []
  simpa using h

/-- C10: a read with bytesToRead other than 2 assembles a value whose high
byte is zero (RDxBuffer stays below 256), and LSM9DS1_WHO_AM_I, which reads
one byte, always returns a value in 0..255, for every device. -/
theorem read1_below_256 (device : ss_t) (address bytesToRead : Nat)
    (resp : List Nat) (h : bytesToRead ≠ 2) :
    (read_SPI device address bytesToRead (S0 resp)).1 < 256 ∧
    LSM9DS1_WHO_AM_I device resp < 256 := by
  cases device <;>
    simp [read_SPI, xferS, S0, LSM9DS1_WHO_AM_I, WHO_AM_I, h] <;> omega

/-- C10 witness at device AG, register 0x0F, one byte, silent bus -/
theorem read1_below_256_witness :
    (read_SPI ss_t.AG 0x0F 1 (S0 [])).1 < 256 ∧
    LSM9DS1_WHO_AM_I ss_t.AG [] < 256 :=
  read1_below_256 ss_t.AG 0x0F 1 [] (by decide)

/-- p6States over the empty trace -/
lemma p6States_nil (p0 : Nat) : p6States p0 [] = [p0] := rfl

/-- p6States unfolds one event at a time -/
lemma p6States_cons (p0 : Nat) (e : SpiEv) (evs : List SpiEv) :
    p6States p0 (e :: evs) = p0 :: p6States (applyEv p0 e) evs := rfl

set_option maxRecDepth 4096 in
/-- bit facts about the AG select/deselect masks, over all 8-bit P6OUT
values with both selects deasserted -/
lemma csBitsAG : ∀ p0 < 256, p0 &&& 1 ≠ 0 → p0 &&& 2 ≠ 0 →
    (p0 &&& 250) &&& 1 = 0 ∧ (p0 &&& 250) &&& 2 ≠ 0 ∧
    ((p0 &&& 250) ||| 5) &&& 1 ≠ 0 := by decide

set_option maxRecDepth 4096 in
/-- bit facts about the M select/deselect masks, over all 8-bit P6OUT values
with both selects deasserted -/
lemma csBitsM : ∀ p0 < 256, p0 &&& 1 ≠ 0 → p0 &&& 2 ≠ 0 →
    (p0 &&& 249) &&& 2 = 0 ∧ (p0 &&& 249) &&& 1 ≠ 0 ∧
    ((p0 &&& 249) ||| 6) &&& 2 ≠ 0 := by decide

/-- chip-select framing of an AG write transaction -/
lemma csOk_write_AG (address data : Nat) (wresp : List Nat) (p0 : Nat)
    (hp : p0 < 256) (h1 : p0 &&& 1 ≠ 0) (h2 : p0 &&& 2 ≠ 0) :
    csOk ss_t.AG p0 (write_SPI ss_t.AG address data (S0 wresp)).events := by
  obtain ⟨b1, b2, b3⟩ := csBitsAG p0 hp h1 h2
  rw [csOk, write_events_AG]
  refine ⟨?_, ?_, ?_⟩
  · simp only [p6States_cons, p6States_nil, applyEv, List.forall_mem_cons,
      List.not_mem_nil, false_implies, implies_true, and_true,
      csagAsserted, csmAsserted, BIT0, BIT1]
    exact ⟨fun hc => h2 hc.2, fun hc => b2 hc.2, fun hc => b2 hc.2,
      fun hc => b2 hc.2, fun hc => b3 hc.1⟩
  · simp only [p6States_cons, p6States_nil, applyEv, List.drop,
      List.dropLast, List.forall_mem_cons, List.not_mem_nil, false_implies,
      implies_true, and_true, devAsserted, csagAsserted, BIT0]
    exact ⟨b1, b1, b1⟩
  · simp only [p6States_cons, p6States_nil, applyEv, List.getLastD,
      devAsserted, csagAsserted, BIT0]
    exact b3

/-- chip-select framing of an M write transaction -/
lemma csOk_write_M (address data : Nat) (wresp : List Nat) (p0 : Nat)
    (hp : p0 < 256) (h1 : p0 &&& 1 ≠ 0) (h2 : p0 &&& 2 ≠ 0) :
    csOk ss_t.M p0 (write_SPI ss_t.M address data (S0 wresp)).events := by
  obtain ⟨b1, b2, b3⟩ := csBitsM p0 hp h1 h2
  rw [csOk, write_events_M]
  refine ⟨?_, ?_, ?_⟩
  · simp only [p6States_cons, p6States_nil, applyEv, List.forall_mem_cons,
      List.not_mem_nil, false_implies, implies_true, and_true,
      csagAsserted, csmAsserted, BIT0, BIT1]
    exact ⟨fun hc => h1 hc.1, fun hc => b2 hc.1, fun hc => b2 hc.1,
      fun hc => b2 hc.1, fun hc => b3 hc.2⟩
  · simp only [p6States_cons, p6States_nil, applyEv, List.drop,
      List.dropLast, List.forall_mem_cons, List.not_mem_nil, false_implies,
      implies_true, and_true, devAsserted, csmAsserted, BIT1]
    exact ⟨b1, b1, b1⟩
  · simp only [p6States_cons, p6States_nil, applyEv, List.getLastD,
      devAsserted, csmAsserted, BIT1]
    exact b3

/-- chip-select framing of an AG read transaction -/
lemma csOk_read_AG (address bytesToRead : Nat) (resp : List Nat) (p0 : Nat)
    (hp : p0 < 256) (h1 : p0 &&& 1 ≠ 0) (h2 : p0 &&& 2 ≠ 0) :
    csOk ss_t.AG p0 (read_SPI ss_t.AG address bytesToRead (S0 resp)).2.events := by
  obtain ⟨b1, b2, b3⟩ := csBitsAG p0 hp h1 h2
  rw [csOk, read_events_AG]
  by_cases hb : bytesToRead = 2
  · rw [if_pos hb]
    simp only [List.cons_append, List.nil_append]
    refine ⟨?_, ?_, ?_⟩
    · simp only [p6States_cons, p6States_nil, applyEv, List.forall_mem_cons,
        List.not_mem_nil, false_implies, implies_true, and_true,
        csagAsserted, csmAsserted, BIT0, BIT1]
      exact ⟨fun hc => h2 hc.2, fun hc => b2 hc.2, fun hc => b2 hc.2,
        fun hc => b2 hc.2, fun hc => b2 hc.2, fun hc => b3 hc.1⟩
    · simp only [p6States_cons, p6States_nil, applyEv, List.drop,
        List.dropLast, List.forall_mem_cons, List.not_mem_nil, false_implies,
        implies_true, and_true, devAsserted, csagAsserted, BIT0]
      exact ⟨b1, b1, b1, b1⟩
    · simp only [p6States_cons, p6States_nil, applyEv, List.getLastD,
        devAsserted, csagAsserted, BIT0]
      exact b3
  · rw [if_neg hb]
    simp only [List.cons_append, List.nil_append]
    refine ⟨?_, ?_, ?_⟩
    · simp only [p6States_cons, p6States_nil, applyEv, List.forall_mem_cons,
        List.not_mem_nil, false_implies, implies_true, and_true,
        csagAsserted, csmAsserted, BIT0, BIT1]
      exact ⟨fun hc => h2 hc.2, fun hc => b2 hc.2, fun hc => b2 hc.2,
        fun hc => b2 hc.2, fun hc => b3 hc.1⟩
    · simp only [p6States_cons, p6States_nil, applyEv, List.drop,
        List.dropLast, List.forall_mem_cons, List.not_mem_nil, false_implies,
        implies_true, and_true, devAsserted, csagAsserted, BIT0]
      exact ⟨b1, b1, b1⟩
    · simp only [p6States_cons, p6States_nil, applyEv, List.getLastD,
        devAsserted, csagAsserted, BIT0]
      exact b3

/-- chip-select framing of an M read transaction -/
lemma csOk_read_M (address bytesToRead : Nat) (resp : List Nat) (p0 : Nat)
    (hp : p0 < 256) (h1 : p0 &&& 1 ≠ 0) (h2 : p0 &&& 2 ≠ 0) :
    csOk ss_t.M p0 (read_SPI ss_t.M address bytesToRead (S0 resp)).2.events := by
  obtain ⟨b1, b2, b3⟩ := csBitsM p0 hp h1 h2
  rw [csOk, read_events_M]
  by_cases hb : bytesToRead = 2
  · rw [if_pos hb]
    simp only [List.cons_append, List.nil_append]
    refine ⟨?_, ?_, ?_⟩
    · simp only [p6States_cons, p6States_nil, applyEv, List.forall_mem_cons,
        List.not_mem_nil, false_implies, implies_true, and_true,
        csagAsserted, csmAsserted, BIT0, BIT1]
      exact ⟨fun hc => h1 hc.1, fun hc => b2 hc.1, fun hc => b2 hc.1,
        fun hc => b2 hc.1, fun hc => b2 hc.1, fun hc => b3 hc.2⟩
    · simp only [p6States_cons, p6States_nil, applyEv, List.drop,
        List.dropLast, List.forall_mem_cons, List.not_mem_nil, false_implies,
        implies_true, and_true, devAsserted, csmAsserted, BIT1]
      exact ⟨b1, b1, b1, b1⟩
    · simp only [p6States_cons, p6States_nil, applyEv, List.getLastD,
        devAsserted, csmAsserted, BIT1]
      exact b3
  · rw [if_neg hb]
    simp only [List.cons_append, List.nil_append]
    refine ⟨?_, ?_, ?_⟩
    · simp only [p6States_cons, p6States_nil, applyEv, List.forall_mem_cons,
        List.not_mem_nil, false_implies, implies_true, and_true,
        csagAsserted, csmAsserted, BIT0, BIT1]
      exact ⟨fun hc => h1 hc.1, fun hc => b2 hc.1, fun hc => b2 hc.1,
        fun hc => b2 hc.1, fun hc => b3 hc.2⟩
    · simp only [p6States_cons, p6States_nil, applyEv, List.drop,
        List.dropLast, List.forall_mem_cons, List.not_mem_nil, false_implies,
        implies_true, and_true, devAsserted, csmAsserted, BIT1]
      exact ⟨b1, b1, b1⟩
    · simp only [p6States_cons, p6States_nil, applyEv, List.getLastD,
        devAsserted, csmAsserted, BIT1]
      exact b3

/-- C5: starting from any 8-bit P6OUT value with both chip selects deasserted,
every read or write transaction on AG or M keeps at most one chip select
asserted at every point of the trace, keeps the transacting device's select
asserted from right after the select event through the last data byte, and
leaves it deasserted at the end. -/
theorem cs_exclusive_and_framed (device : ss_t)
    (hdev : device = ss_t.AG ∨ device = ss_t.M)
    (address bytesToRead data : Nat) (resp wresp : List Nat) (p0 : Nat)
    (hp : p0 < 256) (hag : ¬csagAsserted p0) (hm : ¬csmAsserted p0) :
    csOk device p0 (read_SPI device address bytesToRead (S0 resp)).2.events ∧
    csOk device p0 (write_SPI device address data (S0 wresp)).events := by
  have h1 : p0 &&& 1 ≠ 0 := by simpa [csagAsserted, BIT0] using hag
  have h2 : p0 &&& 2 ≠ 0 := by simpa [csmAsserted, BIT1] using hm
  rcases hdev with h | h <;> subst h
  · exact ⟨csOk_read_AG address bytesToRead resp p0 hp h1 h2,
      csOk_write_AG address data wresp p0 hp h1 h2⟩
  · exact ⟨csOk_read_M address bytesToRead resp p0 hp h1 h2,
      csOk_write_M address data wresp p0 hp h1 h2⟩

/-- C5 witness: an AG two-byte read and an AG write from P6OUT = 7 (all three
managed pins high, both selects deasserted) -/
theorem cs_exclusive_and_framed_witness :
    csOk ss_t.AG 7 (read_SPI ss_t.AG 0x0F 2 (S0 [])).2.events ∧
    csOk ss_t.AG 7 (write_SPI ss_t.AG 0x0F 0x20 (S0 [])).events :=
  cs_exclusive_and_framed ss_t.AG (Or.inl rfl) 0x0F 2 0x20 [] [] 7
    (by decide) (by decide) (by decide)
